import Mathlib

/-!
Shallow embedding of `src/app.py` (stock_recommendation_python): a FastAPI
service with Google authentication, JWT sessions, and a per-user daily query
quota stored in a Supabase `users` table.

Modelling conventions:
* Time is UTC seconds since the epoch (`Nat`); `datetime.utcnow().date()` is
  `dayOf t = t / 86400`.  `last_query_date` is stored as a full timestamp
  (the code stores `datetime.utcnow().isoformat()`) and only its date part is
  compared, exactly as `datetime.fromisoformat(...).date() != today` does.
* The Supabase `users` table is a `List UserRecord`; `select ... eq user_id`
  is `List.find?`, `update ... eq user_id` maps over the list, `insert`
  appends.  Database calls are modelled as succeeding except where a claim is
  about a persist failure, in which case the operation takes an explicit
  `persistOk` flag (the code catches the exception and only logs it).
* HTTP failures (`HTTPException`) are an `HTTPError` value carrying the
  status code and detail string from the code.
* Handlers are state-passing functions `Db → ... → Except HTTPError α × Db`:
  the returned `Db` is the table after the request, unchanged on paths where
  the code performs no write.
-/

/-- HTTP error as raised by `HTTPException(status_code, detail)`. -/
structure HTTPError where
  status_code : Nat
  detail : String
deriving Repr, DecidableEq

/-- One row of the `users` table, as created by `get_or_create_user`:
`user_id`, `email`, `name`, `queries_used_today`, `last_query_date`
(a nullable timestamp), `created_at`. -/
structure UserRecord where
  user_id : String
  email : String
  name : String
  queries_used_today : Nat
  last_query_date : Option Nat
  created_at : Nat
deriving Repr, DecidableEq

/-- The `users` table. -/
abbrev Db := List UserRecord

/-- Calendar date (UTC day number) of a timestamp, `datetime.date()`. -/
def dayOf (t : Nat) : Nat := t / 86400

/-- `supabase.table('users').select('*').eq('user_id', uid).execute()`
followed by taking `response.data[0]` when a row exists. -/
def selectUser (db : Db) (uid : String) : Option UserRecord :=
  db.find? (fun u => u.user_id == uid)

/-- `supabase.table('users').update({'queries_used_today': q,
'last_query_date': d}).eq('user_id', uid).execute()`. -/
def updateUsage (db : Db) (uid : String) (q : Nat) (d : Option Nat) : Db :=
  db.map (fun u =>
    if u.user_id == uid then
      { u with queries_used_today := q, last_query_date := d }
    else u)

/-- `supabase.table('users').insert(new_user).execute()`. -/
def insertUser (db : Db) (u : UserRecord) : Db := db ++ [u]

/-- `reset_daily_queries(user_id)`: persists `queries_used_today = 0` and
`last_query_date = datetime.utcnow().isoformat()`. -/
def reset_daily_queries (db : Db) (uid : String) (now : Nat) : Db :=
  updateUsage db uid 0 (some now)

/-- `check_daily_limit(user_id)` at UTC time `now`: loads the row; if
`last_query_date` is null or its date differs from today, calls
`reset_daily_queries` and returns 3; otherwise fails with 429 when
`queries_used_today >= 3`, else returns `3 - queries_used_today` with no
write.  A missing row makes `response.data[0]` raise, which the generic
handler turns into a 500. -/
def check_daily_limit (db : Db) (uid : String) (now : Nat) :
    Except HTTPError Nat × Db :=
  match selectUser db uid with
  | none => (.error ⟨500, "Error checking query limit"⟩, db)
  | some user =>
    match user.last_query_date with
    | none => (.ok 3, reset_daily_queries db uid now)
    | some t =>
      if dayOf t ≠ dayOf now then
        (.ok 3, reset_daily_queries db uid now)
      else if user.queries_used_today ≥ 3 then
        (.error ⟨429, "Daily query limit reached. You can make 3 queries per day."⟩, db)
      else
        (.ok (3 - user.queries_used_today), db)

/-- `increment_query_count(user_id)` at UTC time `now`: loads the row,
persists `queries_used_today + 1` and `last_query_date = now`.  Any
exception (missing row, failed persist — modelled by `persistOk = false`)
is caught and only logged, leaving the table unchanged. -/
def increment_query_count (db : Db) (uid : String) (now : Nat)
    (persistOk : Bool) : Db :=
  match selectUser db uid with
  | none => db
  | some user =>
    if persistOk then
      updateUsage db uid (user.queries_used_today + 1) (some now)
    else db

/-- Response model of `POST /chat`: only `queries_remaining` is quota
relevant; the code returns `queries_remaining - 1` where the minuend is the
value `check_daily_limit` returned before the increment. -/
def chat_with_agent (db : Db) (uid : String) (now : Nat)
    (persistOk : Bool) : Except HTTPError Nat × Db :=
  match check_daily_limit db uid now with
  | (.error e, db1) => (.error e, db1)
  | (.ok remaining, db1) =>
    let db2 := increment_query_count db1 uid now persistOk
    (.ok (remaining - 1), db2)

/-- Claims of a decoded Google ID token, as returned by
`id_token.verify_oauth2_token`. -/
structure GoogleIdInfo where
  iss : String
  sub : String
  email : String
  name : String
  picture : String
deriving Repr, DecidableEq

/-- User info extracted by `verify_google_token` on success. -/
structure GoogleUserInfo where
  user_id : String
  email : String
  name : String
  picture : String
deriving Repr, DecidableEq

/-- `verify_google_token(id_token_str)`.  The outcome of the external
`id_token.verify_oauth2_token` call (a library collaborator, not in src) is
passed in as `vr`: `.error` for any signature/audience/expiry failure.  Any
exception — including the `ValueError` the code raises on an issuer outside
the allow-list — is caught and mapped to 401 "Invalid Google token". -/
def verify_google_token (vr : Except String GoogleIdInfo) :
    Except HTTPError GoogleUserInfo :=
  match vr with
  | .error _ => .error ⟨401, "Invalid Google token"⟩
  | .ok idinfo =>
    if idinfo.iss == "accounts.google.com" ∨
        idinfo.iss == "https://accounts.google.com" then
      .ok ⟨idinfo.sub, idinfo.email, idinfo.name, idinfo.picture⟩
    else
      .error ⟨401, "Invalid Google token"⟩

/-- `get_or_create_user(user_info)`: returns the existing row, or inserts
`queries_used_today = 0`, `last_query_date = None`, `created_at = now`. -/
def get_or_create_user (db : Db) (info : GoogleUserInfo) (now : Nat) :
    UserRecord × Db :=
  match selectUser db info.user_id with
  | some user => (user, db)
  | none =>
    let new_user : UserRecord :=
      ⟨info.user_id, info.email, info.name, 0, none, now⟩
    (new_user, insertUser db new_user)

/-- JWT payload built by `create_jwt_token`: `sub`, `email`, `exp`. -/
structure JwtPayload where
  sub : String
  email : String
  exp : Nat
deriving Repr, DecidableEq

/-- Modelled from the spec: the `jwt` library (PyJWT, not in src) signs a
payload with a secret key; a signature verifies exactly when the verifying
key equals the signing key.  We carry the signing key in place of the HMAC
tag. -/
structure JwtToken where
  payload : JwtPayload
  sig : String
deriving Repr, DecidableEq

/-- `JWT_SECRET`: the default value of the environment lookup. -/
def JWT_SECRET : String := "your-jwt-secret-change-this"

/-- `create_jwt_token(user_id, email)` at UTC time `now`: payload
`{sub, email, exp = utcnow + timedelta(days=1)}` (86400 seconds), signed
with the process-wide secret. -/
def create_jwt_token (secret : String) (user_id email : String)
    (now : Nat) : JwtToken :=
  ⟨⟨user_id, email, now + 86400⟩, secret⟩

/-- `verify_jwt_token(credentials)` at UTC time `now`.  Modelled from the
spec: the library's `jwt.decode` validates the signature against the same
secret and checks `now < exp`, raising `ExpiredSignatureError` from the
instant `exp <= now` (mapped to 401 "Token has expired") and a generic
decode error on signature mismatch (mapped to 401 "Invalid token"). -/
def verify_jwt_token (secret : String) (tok : JwtToken) (now : Nat) :
    Except HTTPError JwtPayload :=
  if tok.sig == secret then
    if tok.payload.exp ≤ now then
      .error ⟨401, "Token has expired"⟩
    else
      .ok tok.payload
  else
    .error ⟨401, "Invalid token"⟩

/-- Response model of `POST /auth/google`. -/
structure AuthResponse where
  access_token : JwtToken
  token_type : String
  user_id : String
  email : String
  name : String
  queries_remaining : Nat
deriving Repr, DecidableEq

/-- `POST /auth/google`: verify the Google token, get-or-create the user,
mint a JWT, report (not consume) the remaining quota. -/
def google_auth (db : Db) (vr : Except String GoogleIdInfo) (now : Nat) :
    Except HTTPError AuthResponse × Db :=
  match verify_google_token vr with
  | .error e => (.error e, db)
  | .ok info =>
    let gc := get_or_create_user db info now
    let tok := create_jwt_token JWT_SECRET info.user_id info.email now
    match check_daily_limit gc.2 info.user_id now with
    | (.error e, db2) => (.error e, db2)
    | (.ok remaining, db2) =>
      (.ok ⟨tok, "bearer", info.user_id, info.email, info.name, remaining⟩, db2)

/-- Response model of `GET /auth/profile`. -/
structure UserProfile where
  user_id : String
  email : String
  name : String
  queries_used_today : Nat
  queries_remaining : Nat
  last_query_date : Option Nat
deriving Repr, DecidableEq

/-- `GET /auth/profile`: reads the row, then calls `check_daily_limit`
(which may persist a day-rollover reset), and builds the response from the
row read BEFORE the check together with the remaining count computed by the
check.  The handler's `except Exception` also swallows the 429 from
`check_daily_limit` into a 500. -/
def get_user_profile (db : Db) (uid : String) (now : Nat) :
    Except HTTPError UserProfile × Db :=
  match selectUser db uid with
  | none => (.error ⟨500, "Error retrieving user profile"⟩, db)
  | some user =>
    match check_daily_limit db uid now with
    | (.error _, db1) => (.error ⟨500, "Error retrieving user profile"⟩, db1)
    | (.ok remaining, db1) =>
      (.ok ⟨user.user_id, user.email, user.name, user.queries_used_today,
            remaining, user.last_query_date⟩, db1)

/-- An operation of the sequential per-user protocol: a bare quota check
(`GET /auth/profile` path) or a `/chat` call, which increments only after a
successful check (`persistOk` tells whether the increment's persist
succeeds). -/
inductive QuotaOp where
  | check (now : Nat)
  | chat (now : Nat) (persistOk : Bool)
deriving Repr, DecidableEq

/-- State reached after one protocol operation (the HTTP result is
discarded; the table state on an error path is the one the code leaves
behind). -/
def runOp (uid : String) (db : Db) : QuotaOp → Db
  | .check now => (check_daily_limit db uid now).2
  | .chat now persistOk => (chat_with_agent db uid now persistOk).2

/-- State after a sequential list of protocol operations. -/
def runOps (uid : String) (db : Db) (ops : List QuotaOp) : Db :=
  ops.foldl (runOp uid) db

/-- The quota invariant of the spec, for every row of the table. -/
abbrev UsageInv (db : Db) : Prop :=
  ∀ u ∈ db, u.queries_used_today ≤ 3

/-! ### Helper lemmas about the table operations -/

theorem selectUser_updateUsage (db : Db) (uid : String) (q : Nat)
    (d : Option Nat) :
    selectUser (updateUsage db uid q d) uid
      = (selectUser db uid).map
          (fun u => { u with queries_used_today := q, last_query_date := d }) := by
  unfold selectUser updateUsage
  induction db with
  | nil => rfl
  | cons a l ih =>
    cases h : a.user_id == uid with
    | true =>
      rw [List.map_cons, if_pos h,
        List.find?_cons_of_pos (p := fun u : UserRecord => u.user_id == uid) _
          (show (({ a with queries_used_today := q, last_query_date := d } :
              UserRecord).user_id == uid) = true from h),
        List.find?_cons_of_pos (p := fun u : UserRecord => u.user_id == uid) _ h,
        Option.map_some']
    | false =>
      rw [List.map_cons, if_neg (by simp [h]),
        List.find?_cons_of_neg (p := fun u : UserRecord => u.user_id == uid) _ (by simp [h]),
        List.find?_cons_of_neg (p := fun u : UserRecord => u.user_id == uid) _ (by simp [h]),
        ih]

theorem selectUser_updateUsage_some {db : Db} {uid : String}
    {user : UserRecord} (hs : selectUser db uid = some user) (q : Nat)
    (d : Option Nat) :
    selectUser (updateUsage db uid q d) uid
      = some { user with queries_used_today := q, last_query_date := d } := by
  rw [selectUser_updateUsage, hs, Option.map_some']

theorem updateUsage_updateUsage (db : Db) (uid : String) (q1 q2 : Nat)
    (d1 d2 : Option Nat) :
    updateUsage (updateUsage db uid q1 d1) uid q2 d2
      = updateUsage db uid q2 d2 := by
  unfold updateUsage
  rw [List.map_map]
  refine congrFun (congrArg List.map (funext fun u => ?_)) db
  by_cases h : u.user_id == uid <;> simp [Function.comp, h]

theorem usageInv_updateUsage {db : Db} (h : UsageInv db) {q : Nat}
    (hq : q ≤ 3) (uid : String) (d : Option Nat) :
    UsageInv (updateUsage db uid q d) := by
  intro v hv
  unfold updateUsage at hv
  rcases List.mem_map.mp hv with ⟨u, hu, rfl⟩
  by_cases hid : u.user_id == uid
  · simpa [hid] using hq
  · simpa [hid] using h u hu

/-! ### Characterizations of `check_daily_limit` -/

theorem check_daily_limit_fresh {db : Db} {uid : String} {user : UserRecord}
    {now : Nat} (hs : selectUser db uid = some user)
    (hf : ∀ t, user.last_query_date = some t → dayOf t ≠ dayOf now) :
    check_daily_limit db uid now = (.ok 3, reset_daily_queries db uid now) := by
  simp only [check_daily_limit, hs]
  cases hld : user.last_query_date with
  | none => rfl
  | some t => simp [hf t hld]

theorem check_daily_limit_same_day_ok {db : Db} {uid : String}
    {user : UserRecord} {t now : Nat} (hs : selectUser db uid = some user)
    (hld : user.last_query_date = some t) (hday : dayOf t = dayOf now)
    (hu : user.queries_used_today < 3) :
    check_daily_limit db uid now
      = (.ok (3 - user.queries_used_today), db) := by
  simp only [check_daily_limit, hs]
  rw [hld]
  simp [hday, Nat.not_le_of_lt hu]

theorem check_daily_limit_same_day_quota {db : Db} {uid : String}
    {user : UserRecord} {t now : Nat} (hs : selectUser db uid = some user)
    (hld : user.last_query_date = some t) (hday : dayOf t = dayOf now)
    (hu : user.queries_used_today ≥ 3) :
    check_daily_limit db uid now
      = (.error ⟨429, "Daily query limit reached. You can make 3 queries per day."⟩,
         db) := by
  simp only [check_daily_limit, hs]
  rw [hld]
  simp [hday, hu]

/-! ### Invariant preservation -/

theorem usageInv_check_daily_limit {db : Db} (uid : String) (now : Nat)
    (h : UsageInv db) : UsageInv (check_daily_limit db uid now).2 := by
  cases hs : selectUser db uid with
  | none => simp only [check_daily_limit, hs]; exact h
  | some user =>
    cases hld : user.last_query_date with
    | none =>
      rw [check_daily_limit_fresh hs (fun t ht => by rw [hld] at ht; cases ht)]
      exact usageInv_updateUsage h (by omega) uid (some now)
    | some t =>
      by_cases hd : dayOf t = dayOf now
      · by_cases hu : user.queries_used_today < 3
        · rw [check_daily_limit_same_day_ok hs hld hd hu]; exact h
        · rw [check_daily_limit_same_day_quota hs hld hd (by omega)]; exact h
      · rw [check_daily_limit_fresh hs
          (fun s hst => by rw [hld] at hst; cases hst; exact hd)]
        exact usageInv_updateUsage h (by omega) uid (some now)

theorem usageInv_increment_query_count {db : Db} {uid : String}
    (now : Nat) (persistOk : Bool) (h : UsageInv db)
    (hsel : ∀ u, selectUser db uid = some u → u.queries_used_today ≤ 2) :
    UsageInv (increment_query_count db uid now persistOk) := by
  unfold increment_query_count
  cases hs : selectUser db uid with
  | none => exact h
  | some user =>
    cases persistOk with
    | false => exact h
    | true =>
      simp only [if_pos rfl]
      exact usageInv_updateUsage h (by have := hsel user hs; omega) uid (some now)

theorem check_daily_limit_ok_select {db : Db} {uid : String} {now r : Nat}
    {db1 : Db} (h : check_daily_limit db uid now = (.ok r, db1)) :
    ∃ u, selectUser db1 uid = some u ∧ u.queries_used_today ≤ 2 := by
  cases hs : selectUser db uid with
  | none => simp [check_daily_limit, hs] at h
  | some user =>
    cases hld : user.last_query_date with
    | none =>
      rw [check_daily_limit_fresh hs (fun t ht => by rw [hld] at ht; cases ht)] at h
      obtain ⟨-, rfl⟩ := Prod.mk.injEq .. ▸ h
      exact ⟨_, selectUser_updateUsage_some hs 0 (some now), by simp⟩
    | some t =>
      by_cases hd : dayOf t = dayOf now
      · by_cases hu : user.queries_used_today < 3
        · rw [check_daily_limit_same_day_ok hs hld hd hu] at h
          obtain ⟨-, rfl⟩ := Prod.mk.injEq .. ▸ h
          exact ⟨user, hs, by omega⟩
        · rw [check_daily_limit_same_day_quota hs hld hd (by omega)] at h
          cases h
      · rw [check_daily_limit_fresh hs
          (fun s hst => by rw [hld] at hst; cases hst; exact hd)] at h
        obtain ⟨-, rfl⟩ := Prod.mk.injEq .. ▸ h
        exact ⟨_, selectUser_updateUsage_some hs 0 (some now), by simp⟩

theorem usageInv_chat_with_agent {db : Db} (uid : String) (now : Nat)
    (persistOk : Bool) (h : UsageInv db) :
    UsageInv (chat_with_agent db uid now persistOk).2 := by
  have hc := usageInv_check_daily_limit uid now h
  unfold chat_with_agent
  cases hck : check_daily_limit db uid now with
  | mk res db1 =>
    rw [hck] at hc
    cases res with
    | error e => exact hc
    | ok r =>
      simp only []
      exact usageInv_increment_query_count now persistOk hc
        (fun u hu => by
          obtain ⟨v, hv, hv2⟩ := check_daily_limit_ok_select hck
          rw [hv] at hu
          cases hu
          exact hv2)

theorem usageInv_runOp {db : Db} (uid : String) (op : QuotaOp)
    (h : UsageInv db) : UsageInv (runOp uid db op) := by
  cases op with
  | check now => exact usageInv_check_daily_limit uid now h
  | chat now persistOk => exact usageInv_chat_with_agent uid now persistOk h

/-! ### Characterizations of `chat_with_agent` -/

theorem chat_with_agent_fresh {db : Db} {uid : String} {user : UserRecord}
    {now : Nat} (hs : selectUser db uid = some user)
    (hf : ∀ t, user.last_query_date = some t → dayOf t ≠ dayOf now) :
    chat_with_agent db uid now true
      = (.ok 2, updateUsage db uid 1 (some now)) := by
  unfold chat_with_agent
  rw [check_daily_limit_fresh hs hf]
  show (Except.ok 2,
    increment_query_count (reset_daily_queries db uid now) uid now true) = _
  unfold increment_query_count reset_daily_queries
  rw [selectUser_updateUsage_some hs 0 (some now)]
  simp [updateUsage_updateUsage]

theorem chat_with_agent_same_day_ok {db : Db} {uid : String}
    {user : UserRecord} {t now : Nat} (hs : selectUser db uid = some user)
    (hld : user.last_query_date = some t) (hday : dayOf t = dayOf now)
    (hu : user.queries_used_today < 3) :
    chat_with_agent db uid now true
      = (.ok (3 - user.queries_used_today - 1),
         updateUsage db uid (user.queries_used_today + 1) (some now)) := by
  unfold chat_with_agent
  rw [check_daily_limit_same_day_ok hs hld hday hu]
  show (Except.ok (3 - user.queries_used_today - 1),
    increment_query_count db uid now true) = _
  unfold increment_query_count
  rw [hs]
  simp

theorem chat_with_agent_same_day_quota {db : Db} {uid : String}
    {user : UserRecord} {t now : Nat} (hs : selectUser db uid = some user)
    (hld : user.last_query_date = some t) (hday : dayOf t = dayOf now)
    (hu : user.queries_used_today ≥ 3) :
    chat_with_agent db uid now true
      = (.error ⟨429, "Daily query limit reached. You can make 3 queries per day."⟩,
         db) := by
  unfold chat_with_agent
  rw [check_daily_limit_same_day_quota hs hld hday hu]

/-! ### Claim theorems -/

/-- Claim C1: for every user whose stored `last_query_date` falls on today's
UTC date, `check_daily_limit` fails with the 429 quota error exactly when
`queries_used_today ≥ 3`, and otherwise returns `3 - queries_used_today`;
in both cases the table is returned unchanged (the check is a peek). -/
theorem check_daily_limit_same_day_peek {db : Db} {uid : String}
    {user : UserRecord} {t now : Nat} (hs : selectUser db uid = some user)
    (hld : user.last_query_date = some t) (hday : dayOf t = dayOf now) :
    (user.queries_used_today ≥ 3 →
      check_daily_limit db uid now
        = (.error ⟨429, "Daily query limit reached. You can make 3 queries per day."⟩,
           db)) ∧
    (user.queries_used_today < 3 →
      check_daily_limit db uid now
        = (.ok (3 - user.queries_used_today), db)) := by
  constructor
  · intro hu
    exact check_daily_limit_same_day_quota hs hld hday hu
  · intro hu
    exact check_daily_limit_same_day_ok hs hld hday hu

/-- Witness for C1: a user at the limit is rejected with 429 and a user at
2 of 3 gets 1 remaining, the table untouched in both cases. -/
theorem check_daily_limit_same_day_peek_witness :
    (check_daily_limit [⟨"u1", "a@b", "A", 3, some 100, 0⟩] "u1" 200
      = (.error ⟨429, "Daily query limit reached. You can make 3 queries per day."⟩,
         [⟨"u1", "a@b", "A", 3, some 100, 0⟩])) ∧
    (check_daily_limit [⟨"u2", "c@d", "C", 2, some 100, 0⟩] "u2" 200
      = (.ok 1, [⟨"u2", "c@d", "C", 2, some 100, 0⟩])) :=
  ⟨(@check_daily_limit_same_day_peek [⟨"u1", "a@b", "A", 3, some 100, 0⟩] "u1"
      ⟨"u1", "a@b", "A", 3, some 100, 0⟩ 100 200 (by decide) rfl (by decide)).1
      (by decide),
   (@check_daily_limit_same_day_peek [⟨"u2", "c@d", "C", 2, some 100, 0⟩] "u2"
      ⟨"u2", "c@d", "C", 2, some 100, 0⟩ 100 200 (by decide) rfl (by decide)).2
      (by decide)⟩

/-- Claim C2: for every user whose stored `last_query_date` is absent or not
on today's UTC date, `check_daily_limit` persists a reset (the stored row
becomes `queries_used_today = 0`, `last_query_date = now`) and returns 3,
regardless of the stored `queries_used_today` (in particular at the limit). -/
theorem check_daily_limit_day_rollover {db : Db} {uid : String}
    {user : UserRecord} {now : Nat} (hs : selectUser db uid = some user)
    (hf : ∀ t, user.last_query_date = some t → dayOf t ≠ dayOf now) :
    check_daily_limit db uid now = (.ok 3, reset_daily_queries db uid now) ∧
    selectUser (reset_daily_queries db uid now) uid
      = some { user with queries_used_today := 0, last_query_date := some now } :=
  ⟨check_daily_limit_fresh hs hf,
   selectUser_updateUsage_some hs 0 (some now)⟩

/-- Witness for C2: a user at the limit with `last_query_date` = day 0 is
reset by a check on day 1 and granted the full limit of 3. -/
theorem check_daily_limit_day_rollover_witness :
    check_daily_limit [⟨"u1", "a@b", "A", 3, some 100, 0⟩] "u1" 86500
      = (.ok 3, [⟨"u1", "a@b", "A", 0, some 86500, 0⟩]) ∧
    selectUser [⟨"u1", "a@b", "A", 0, some 86500, 0⟩] "u1"
      = some ⟨"u1", "a@b", "A", 0, some 86500, 0⟩ := by
  have h := @check_daily_limit_day_rollover [⟨"u1", "a@b", "A", 3, some 100, 0⟩]
    "u1" ⟨"u1", "a@b", "A", 3, some 100, 0⟩ 86500 (by decide)
    (by intro t ht; simp only [Option.some.injEq] at ht; subst ht; decide)
  exact ⟨h.1, h.2⟩

/-- Claim C3: starting from a table in which every row has
`queries_used_today ≤ 3`, any sequential sequence of protocol operations
(bare checks, and `/chat` calls that increment only after a successful
check) keeps every row's `queries_used_today` within `[0, 3]`. -/
theorem queries_used_today_bounded (ops : List QuotaOp) (db : Db)
    (uid : String) (h : ∀ u ∈ db, u.queries_used_today ≤ 3) :
    ∀ u ∈ runOps uid db ops, u.queries_used_today ≤ 3 := by
  induction ops generalizing db with
  | nil => exact h
  | cons op ops ih =>
    exact ih (runOp uid db op) (usageInv_runOp uid op h)

/-- Witness for C3: three same-day chats followed by a fourth attempt and a
bare check never push the stored count past 3. -/
theorem queries_used_today_bounded_witness :
    (∀ u ∈ [(⟨"u1", "a@b", "A", 2, some 100, 0⟩ : UserRecord)],
      u.queries_used_today ≤ 3) ∧
    ∀ u ∈ runOps "u1" [⟨"u1", "a@b", "A", 2, some 100, 0⟩]
        [.chat 200 true, .chat 300 true, .chat 400 true, .check 500,
         .chat 600 false],
      u.queries_used_today ≤ 3 :=
  ⟨by decide,
   queries_used_today_bounded
     [.chat 200 true, .chat 300 true, .chat 400 true, .check 500,
      .chat 600 false]
     [⟨"u1", "a@b", "A", 2, some 100, 0⟩] "u1" (by decide)⟩

/-- Claim C4: with a stored `last_query_date` not on day `n1` (or absent),
four sequential `/chat` calls on the same day succeed with
`queries_remaining` 2, 1, 0 and then fail with the 429 quota error leaving
the table unchanged, and the first call on the following day succeeds with
`queries_remaining` 2 again. -/
theorem chat_daily_quota_scenario {db : Db} {uid : String}
    {user : UserRecord} {n1 n2 n3 n4 n5 : Nat}
    (hs : selectUser db uid = some user)
    (hf : ∀ t, user.last_query_date = some t → dayOf t ≠ dayOf n1)
    (h12 : dayOf n2 = dayOf n1) (h13 : dayOf n3 = dayOf n1)
    (h14 : dayOf n4 = dayOf n1) (h15 : dayOf n5 = dayOf n1 + 1) :
    (chat_with_agent db uid n1 true).1 = .ok 2 ∧
    (chat_with_agent (chat_with_agent db uid n1 true).2 uid n2 true).1
      = .ok 1 ∧
    (chat_with_agent (chat_with_agent (chat_with_agent db uid n1 true).2 uid
        n2 true).2 uid n3 true).1 = .ok 0 ∧
    (chat_with_agent (chat_with_agent (chat_with_agent (chat_with_agent db
        uid n1 true).2 uid n2 true).2 uid n3 true).2 uid n4 true)
      = (.error ⟨429, "Daily query limit reached. You can make 3 queries per day."⟩,
         (chat_with_agent (chat_with_agent (chat_with_agent db uid n1
            true).2 uid n2 true).2 uid n3 true).2) ∧
    (chat_with_agent (chat_with_agent (chat_with_agent (chat_with_agent
        (chat_with_agent db uid n1 true).2 uid n2 true).2 uid n3 true).2 uid
        n4 true).2 uid n5 true).1 = .ok 2 := by
  have e1 : chat_with_agent db uid n1 true
      = (.ok 2, updateUsage db uid 1 (some n1)) := chat_with_agent_fresh hs hf
  have s1 : selectUser (updateUsage db uid 1 (some n1)) uid
      = some { user with queries_used_today := 1, last_query_date := some n1 } :=
    selectUser_updateUsage_some hs 1 (some n1)
  have e2 : chat_with_agent (updateUsage db uid 1 (some n1)) uid n2 true
      = (.ok 1, updateUsage db uid 2 (some n2)) := by
    have h := chat_with_agent_same_day_ok s1 rfl
      (show dayOf n1 = dayOf n2 from h12.symm) (by simp)
    simpa [updateUsage_updateUsage] using h
  have s2 : selectUser (updateUsage db uid 2 (some n2)) uid
      = some { user with queries_used_today := 2, last_query_date := some n2 } :=
    selectUser_updateUsage_some hs 2 (some n2)
  have e3 : chat_with_agent (updateUsage db uid 2 (some n2)) uid n3 true
      = (.ok 0, updateUsage db uid 3 (some n3)) := by
    have h := chat_with_agent_same_day_ok s2 rfl
      (show dayOf n2 = dayOf n3 from h12.trans h13.symm) (by simp)
    simpa [updateUsage_updateUsage] using h
  have s3 : selectUser (updateUsage db uid 3 (some n3)) uid
      = some { user with queries_used_today := 3, last_query_date := some n3 } :=
    selectUser_updateUsage_some hs 3 (some n3)
  have e4 : chat_with_agent (updateUsage db uid 3 (some n3)) uid n4 true
      = (.error ⟨429, "Daily query limit reached. You can make 3 queries per day."⟩,
         updateUsage db uid 3 (some n3)) :=
    chat_with_agent_same_day_quota s3 rfl
      (show dayOf n3 = dayOf n4 from h13.trans h14.symm) (by simp)
  have e5 : chat_with_agent (updateUsage db uid 3 (some n3)) uid n5 true
      = (.ok 2, updateUsage db uid 1 (some n5)) := by
    have h : chat_with_agent (updateUsage db uid 3 (some n3)) uid n5 true
        = (.ok 2, updateUsage (updateUsage db uid 3 (some n3)) uid 1 (some n5)) :=
      chat_with_agent_fresh s3
        (by intro t ht
            simp only [Option.some.injEq] at ht
            subst ht
            omega)
    rwa [updateUsage_updateUsage] at h
  refine ⟨?_, ?_, ?_, ?_, ?_⟩ <;> simp [e1, e2, e3, e4, e5]

/-- Witness for C4: a concrete user whose last query was on day 0, calling
`/chat` four times on day 1 and once on day 2. -/
theorem chat_daily_quota_scenario_witness :
    (chat_with_agent [⟨"u1", "a@b", "A", 3, some 100, 0⟩] "u1" 86400
        true).1 = .ok 2 ∧
    (chat_with_agent (chat_with_agent [⟨"u1", "a@b", "A", 3, some 100, 0⟩]
        "u1" 86400 true).2 "u1" 86500 true).1 = .ok 1 ∧
    (chat_with_agent (chat_with_agent (chat_with_agent
        [⟨"u1", "a@b", "A", 3, some 100, 0⟩] "u1" 86400 true).2 "u1" 86500
        true).2 "u1" 86600 true).1 = .ok 0 ∧
    (chat_with_agent (chat_with_agent (chat_with_agent (chat_with_agent
        [⟨"u1", "a@b", "A", 3, some 100, 0⟩] "u1" 86400 true).2 "u1" 86500
        true).2 "u1" 86600 true).2 "u1" 86700 true)
      = (.error ⟨429, "Daily query limit reached. You can make 3 queries per day."⟩,
         (chat_with_agent (chat_with_agent (chat_with_agent
            [⟨"u1", "a@b", "A", 3, some 100, 0⟩] "u1" 86400 true).2 "u1"
            86500 true).2 "u1" 86600 true).2) ∧
    (chat_with_agent (chat_with_agent (chat_with_agent (chat_with_agent
        (chat_with_agent [⟨"u1", "a@b", "A", 3, some 100, 0⟩] "u1" 86400
        true).2 "u1" 86500 true).2 "u1" 86600 true).2 "u1" 86700 true).2
        "u1" 172900 true).1 = .ok 2 :=
  @chat_daily_quota_scenario [⟨"u1", "a@b", "A", 3, some 100, 0⟩] "u1"
    ⟨"u1", "a@b", "A", 3, some 100, 0⟩ 86400 86500 86600 86700 172900
    (by decide)
    (by intro t ht; simp only [Option.some.injEq] at ht; subst ht; decide)
    (by decide) (by decide) (by decide) (by decide)

/-- Claim C5: a session credential minted by `create_jwt_token` and
validated with the same process-wide secret at any instant strictly before
its expiry (24 hours after issuance) is accepted, and the returned payload
carries exactly the embedded subject id and email. -/
theorem jwt_round_trip (secret sub email : String) (t0 now : Nat)
    (h : now < t0 + 86400) :
    verify_jwt_token secret (create_jwt_token secret sub email t0) now
      = .ok ⟨sub, email, t0 + 86400⟩ := by
  unfold verify_jwt_token create_jwt_token
  simp [Nat.not_le_of_lt h]

/-- Witness for C5: a token issued at time 100 verifies one second before
its expiry and yields its subject and email. -/
theorem jwt_round_trip_witness :
    (86499 : Nat) < 100 + 86400 ∧
    verify_jwt_token "s" (create_jwt_token "s" "sub1" "a@b" 100) 86499
      = .ok ⟨"sub1", "a@b", 86500⟩ :=
  ⟨by decide, jwt_round_trip "s" "sub1" "a@b" 100 86499 (by decide)⟩

/-- Claim C6: validating a minted credential succeeds exactly while
`now < expires_at` and fails with the expired-credential 401 from the
instant `now = expires_at` onward; in particular it is valid one second
before expiry, rejected at exactly expiry, and rejected one second after. -/
theorem jwt_expiry_boundary (secret sub email : String) (t0 now : Nat) :
    verify_jwt_token secret (create_jwt_token secret sub email t0) now
      = (if now < t0 + 86400 then .ok ⟨sub, email, t0 + 86400⟩
         else .error ⟨401, "Token has expired"⟩) := by
  unfold verify_jwt_token create_jwt_token
  rcases Nat.lt_or_ge now (t0 + 86400) with h | h
  · simp [h, Nat.not_le_of_lt h]
  · simp [h, Nat.not_lt_of_le h]

/-- Claim C7: whenever the Google identity assertion fails verification
(the library rejects it, or its issuer is outside the allow-list),
`POST /auth/google` answers 401 "Invalid Google token" and the user table
is returned exactly as it was: no record is created or modified. -/
theorem google_auth_invalid_atomic {vr : Except String GoogleIdInfo}
    (db : Db) (now : Nat)
    (h : ∀ i, vr = .ok i → i.iss ≠ "accounts.google.com" ∧
        i.iss ≠ "https://accounts.google.com") :
    google_auth db vr now = (.error ⟨401, "Invalid Google token"⟩, db) := by
  unfold google_auth verify_google_token
  cases vr with
  | error e => rfl
  | ok i =>
    obtain ⟨h1, h2⟩ := h i rfl
    simp [h1, h2]

/-- Witness for C7: a malformed assertion against an empty table, and an
untrusted-issuer assertion against a table with one user, both yield 401
and leave the table unchanged. -/
theorem google_auth_invalid_atomic_witness :
    google_auth [] (.error "malformed assertion") 0
      = (.error ⟨401, "Invalid Google token"⟩, []) ∧
    google_auth [⟨"u1", "a@b", "A", 1, some 5, 0⟩]
        (.ok ⟨"evil.example", "u1", "a@b", "A", ""⟩) 99
      = (.error ⟨401, "Invalid Google token"⟩,
         [⟨"u1", "a@b", "A", 1, some 5, 0⟩]) :=
  ⟨google_auth_invalid_atomic [] 0 (fun i hi => by cases hi),
   google_auth_invalid_atomic [⟨"u1", "a@b", "A", 1, some 5, 0⟩] 99
     (fun i hi => by cases hi; exact ⟨by decide, by decide⟩)⟩

/-- Claim C8: `increment_query_count` reads the stored row and persists the
previous count plus one together with today's date; when the persist fails
the table is left unchanged and the failure is swallowed, so a `/chat`
request whose check succeeded still returns success with the same
`queries_remaining`. -/
theorem increment_failure_logged_only {db : Db} {uid : String}
    {user : UserRecord} {now : Nat} (hs : selectUser db uid = some user) :
    increment_query_count db uid now true
      = updateUsage db uid (user.queries_used_today + 1) (some now) ∧
    selectUser (increment_query_count db uid now true) uid
      = some { user with
          queries_used_today := user.queries_used_today + 1,
          last_query_date := some now } ∧
    increment_query_count db uid now false = db ∧
    (∀ r db1, check_daily_limit db uid now = (.ok r, db1) →
      chat_with_agent db uid now false = (.ok (r - 1), db1)) := by
  have h1 : increment_query_count db uid now true
      = updateUsage db uid (user.queries_used_today + 1) (some now) := by
    unfold increment_query_count
    rw [hs]
    rfl
  refine ⟨h1, ?_, ?_, ?_⟩
  · rw [h1]
    exact selectUser_updateUsage_some hs _ _
  · unfold increment_query_count
    rw [hs]
    rfl
  · intro r db1 hck
    unfold chat_with_agent
    rw [hck]
    show (Except.ok (r - 1), increment_query_count db1 uid now false) = _
    unfold increment_query_count
    cases selectUser db1 uid <;> rfl

/-- Witness for C8: incrementing a user with 1 used query persists 2; a
failed persist leaves the row at 1 and the `/chat` call still succeeds
with the same remaining count. -/
theorem increment_failure_logged_only_witness :
    increment_query_count [⟨"u1", "a@b", "A", 1, some 100, 0⟩] "u1" 200 true
      = [⟨"u1", "a@b", "A", 2, some 200, 0⟩] ∧
    selectUser (increment_query_count [⟨"u1", "a@b", "A", 1, some 100, 0⟩]
        "u1" 200 true) "u1" = some ⟨"u1", "a@b", "A", 2, some 200, 0⟩ ∧
    increment_query_count [⟨"u1", "a@b", "A", 1, some 100, 0⟩] "u1" 200 false
      = [⟨"u1", "a@b", "A", 1, some 100, 0⟩] ∧
    chat_with_agent [⟨"u1", "a@b", "A", 1, some 100, 0⟩] "u1" 200 false
      = (.ok 1, [⟨"u1", "a@b", "A", 1, some 100, 0⟩]) := by
  have h := @increment_failure_logged_only
    [⟨"u1", "a@b", "A", 1, some 100, 0⟩] "u1"
    ⟨"u1", "a@b", "A", 1, some 100, 0⟩ 200 (by decide)
  exact ⟨h.1, h.2.1, h.2.2.1, h.2.2.2 2 _ (by rfl)⟩

/-- Claim C10: for a user whose stored `last_query_date` is not today,
`GET /auth/profile` reports the `queries_used_today` and `last_query_date`
read before the day-rollover reset together with `queries_remaining = 3`
computed after it (while the stored row is reset), so the response can show
`queries_used_today + queries_remaining` above the daily limit. -/
theorem profile_stale_usage_rollover {db : Db} {uid : String}
    {user : UserRecord} {now : Nat} (hs : selectUser db uid = some user)
    (hf : ∀ t, user.last_query_date = some t → dayOf t ≠ dayOf now) :
    get_user_profile db uid now
      = (.ok ⟨user.user_id, user.email, user.name, user.queries_used_today,
              3, user.last_query_date⟩,
         reset_daily_queries db uid now) := by
  simp only [get_user_profile, hs]
  rw [check_daily_limit_fresh hs hf]

/-- Witness for C10: a user at the stored limit with yesterday's date gets
a profile reporting 3 used and 3 remaining — summing past the limit — while
the stored row is reset. -/
theorem profile_stale_usage_rollover_witness :
    get_user_profile [⟨"u1", "a@b", "A", 3, some 100, 0⟩] "u1" 86500
      = (.ok ⟨"u1", "a@b", "A", 3, 3, some 100⟩,
         [⟨"u1", "a@b", "A", 0, some 86500, 0⟩]) ∧ 3 + 3 > 3 :=
  ⟨@profile_stale_usage_rollover [⟨"u1", "a@b", "A", 3, some 100, 0⟩] "u1"
    ⟨"u1", "a@b", "A", 3, some 100, 0⟩ 86500 (by decide)
    (by intro t ht; simp only [Option.some.injEq] at ht; subst ht; decide),
   by decide⟩
